import Mathlib

/-!
Shallow embedding of the event-correlation engine of
`go-lnd-router-events` (`src/events/events.go`, package `events`).

The engine keeps a global map `forwardsInFlight` from a composite routing
key (the sum of the four routing ids, computed at `events.go:172`) to the
raw `routerrpc.HtlcEvent` that started the forwarding attempt, and a global
map `observers` from event category to a slice of registered observers.
RPC calls (`GetChanInfo`, `GetNodeInfo`) are modelled as an oracle
environment returning `Option` results, `none` standing for an RPC error.
A `none` result of a whole step stands for a nil-pointer panic of the Go
code (dereferencing a struct pointer that is nil because its RPC errored).
-/

namespace Events

/-- Go `routerrpc.HtlcInfo`: the amounts carried by a forward event. -/
structure HtlcInfo where
  IncomingAmtMsat : Nat
  OutgoingAmtMsat : Nat
deriving DecidableEq, Repr

/-- Go `routerrpc.ForwardEvent`: payload of an attempt-started event. -/
structure ForwardEvent where
  Info : HtlcInfo
deriving DecidableEq, Repr

/-- The oneof `Event` field of Go `routerrpc.HtlcEvent`: the four shapes
the switch at `events.go:174` distinguishes. -/
inductive HtlcEventOneof where
  | SettleEvent
  | LinkFailEvent
  | ForwardFailEvent
  | ForwardEvent (fwd : ForwardEvent)
deriving DecidableEq, Repr

/-- Go `routerrpc.HtlcEvent`: the raw record received from the forwarding
stream, carrying the four routing-key integers and the oneof payload. -/
structure HtlcEvent where
  IncomingChannelId : Nat
  OutgoingChannelId : Nat
  IncomingHtlcId : Nat
  OutgoingHtlcId : Nat
  Event : HtlcEventOneof
deriving DecidableEq, Repr

/-- Go `event.GetForwardEvent()`: returns the forward payload, nil
(`none`) when the event is not a forward event. -/
def HtlcEvent.GetForwardEvent (e : HtlcEvent) : Option ForwardEvent :=
  match e.Event with
  | .ForwardEvent fwd => some fwd
  | _ => none

/-- `events.go:172`: `inFlightKey := event.IncomingChannelId +
event.OutgoingChannelId + event.IncomingHtlcId + event.OutgoingHtlcId`.
The Go ids are `uint64`, so the sum wraps modulo `2^64`. -/
def inFlightKey (event : HtlcEvent) : Nat :=
  (event.IncomingChannelId + event.OutgoingChannelId +
    event.IncomingHtlcId + event.OutgoingHtlcId) % 2 ^ 64

/-- Go `events.ObservableEventType` (`events.go:19`). -/
inductive ObservableEventType where
  | SettledInvoice
  | Forward
deriving DecidableEq, Repr

/-- Go `events.Event` (`events.go:52`): the subscriber-facing record.
The Go field `Type` is named `EventType` here because `Type` is reserved
in Lean; unset fields default to the Go zero values of a composite
literal. -/
structure Event where
  EventType : ObservableEventType
  FromPubKey : String := ""
  FromAlias : String := ""
  IncomingMSats : Nat := 0
  ToAlias : String := ""
  ToPubKey : String := ""
  OutgoingMSats : Nat := 0
  ChanId_In : Nat := 0
  ChanId_Out : Nat := 0
  HtlcId_In : Nat := 0
  HtlcId_Out : Nat := 0
  IsSettled : Bool := false
  SettleAmount_msat : Int := 0
  Preimage : List Nat := []
deriving DecidableEq, Repr

/-- Go `lnrpc.ChannelEdge` as used by `settleEventDetails`: the two
endpoint identities of a channel. -/
structure ChanInfo where
  Node1Pub : String
  Node2Pub : String
deriving DecidableEq, Repr

/-- Go `lnrpc.LightningNode` as used by `getNodeAlias`. -/
structure LightningNode where
  Alias : String
deriving DecidableEq, Repr

/-- Go `lnrpc.NodeInfo` as used by `getNodeAlias`. -/
structure NodeInfo where
  Node : LightningNode
deriving DecidableEq, Repr

/-- The RPC oracle standing for the global `lndcli` client and
`thisNodesPubKey` (`events.go:83-85`): `getChanInfo`/`getNodeInfo` return
`none` when the corresponding RPC call returns an error. -/
structure LndEnv where
  getChanInfo : Nat → Option ChanInfo
  getNodeInfo : String → Option NodeInfo
  thisNodesPubKey : String

/-- Go `getNodeAlias` (`events.go:297-306`): on an RPC error the code
logs and then evaluates `nodeInfo.Node.Alias` on the nil `nodeInfo`, a
nil-pointer dereference; `none` stands for that panic. -/
def getNodeAlias (env : LndEnv) (pubKey : String) : Option String :=
  match env.getNodeInfo pubKey with
  | some nodeInfo => some nodeInfo.Node.Alias
  | none => none

/-- The incoming-side block of `settleEventDetails` (`events.go:233-247`):
produces `(fromPubKey, fromAlias)`; placeholders on a channel-lookup
error, otherwise the counterparty's pub key and alias. `none` stands for
a panic inside `getNodeAlias`. -/
def resolveIncoming (env : LndEnv) (event : HtlcEvent) :
    Option (String × String) :=
  match env.getChanInfo event.IncomingChannelId with
  | none => some ("Incoming pub key not available", "Info not available")
  | some incomingChanInfo =>
    if incomingChanInfo.Node1Pub = env.thisNodesPubKey then
      match getNodeAlias env incomingChanInfo.Node2Pub with
      | some fromAlias => some (incomingChanInfo.Node2Pub, fromAlias)
      | none => none
    else
      match getNodeAlias env incomingChanInfo.Node1Pub with
      | some fromAlias => some (incomingChanInfo.Node1Pub, fromAlias)
      | none => none

/-- The outgoing-side block of `settleEventDetails` (`events.go:249-263`):
produces `(toPubKey, toAlias)` analogously. -/
def resolveOutgoing (env : LndEnv) (event : HtlcEvent) :
    Option (String × String) :=
  match env.getChanInfo event.OutgoingChannelId with
  | none =>
    some ("Outgoing pub key not available", "Nowhere - you\x27ve been paid")
  | some outgoingChanInfo =>
    if outgoingChanInfo.Node1Pub = env.thisNodesPubKey then
      match getNodeAlias env outgoingChanInfo.Node2Pub with
      | some toAlias => some (outgoingChanInfo.Node2Pub, toAlias)
      | none => none
    else
      match getNodeAlias env outgoingChanInfo.Node1Pub with
      | some toAlias => some (outgoingChanInfo.Node1Pub, toAlias)
      | none => none

/-- Go `settleEventDetails` (`events.go:229-274`): enriches the stored
attempt event into the subscriber-facing `Event`. The amounts are read
from `event.GetForwardEvent().Info`, a nil dereference (`none`) when the
stored event is not a forward event. -/
def settleEventDetails (env : LndEnv) (event : HtlcEvent) : Option Event :=
  match resolveIncoming env event with
  | none => none
  | some (fromPubKey, fromAlias) =>
    match resolveOutgoing env event with
    | none => none
    | some (toPubKey, toAlias) =>
      match event.GetForwardEvent with
      | none => none
      | some fwd =>
        some { EventType := .Forward
               FromPubKey := fromPubKey
               FromAlias := fromAlias
               ToPubKey := toPubKey
               ToAlias := toAlias
               IncomingMSats := fwd.Info.IncomingAmtMsat
               OutgoingMSats := fwd.Info.OutgoingAmtMsat }

/-- The global `forwardsInFlight map[uint64]*routerrpc.HtlcEvent`
(`events.go:79`), as a function map: `none` at a key means the key is
absent. -/
def InFlightMap : Type := Nat → Option HtlcEvent

/-- Pointwise update of a function map; Go map assignment is
`mapUpdate m k (some v)` and Go `delete` is `mapUpdate m k none`. -/
def mapUpdate {κ α : Type} [DecidableEq κ] (m : κ → Option α) (k : κ)
    (v : Option α) : κ → Option α :=
  fun q => if q = k then v else m q

/-- One iteration of the receive loop of `subscribeHtlcEvents`
(`events.go:164-194`) on one raw event: returns the new in-flight map and
the list of `Event`s passed to `UpdateAll` during the iteration, or
`none` when the iteration panics inside `settleEventDetails`. -/
def processHtlcEvent (env : LndEnv) (m : InFlightMap) (event : HtlcEvent) :
    Option (InFlightMap × List Event) :=
  let key := inFlightKey event
  match event.Event with
  | .SettleEvent =>
    match m key with
    | none => some (m, [])
    | some e =>
      match settleEventDetails env e with
      | some settleEvent => some (mapUpdate m key none, [settleEvent])
      | none => none
  | .LinkFailEvent => some (mapUpdate m key none, [])
  | .ForwardFailEvent => some (mapUpdate m key none, [])
  | .ForwardEvent _ => some (mapUpdate m key (some event), [])

/-- Go `Observer` (`events.go:47`): the registry only uses the name
returned by `GetName`, so an observer is modelled by that name. -/
structure Observer where
  Name : String
deriving DecidableEq, Repr

/-- Go `o.GetName()`. -/
def Observer.GetName (o : Observer) : String := o.Name

/-- The global `observers map[ObservableEventType][]Observer`
(`events.go:77`), as a function map: `none` means the category key is
absent from the map, `some l` that it holds the slice `l`. -/
def Registry : Type := ObservableEventType → Option (List Observer)

/-- Go `Register` (`events.go:276-279`):
`observers[t] = append(observers[t], o)`; indexing a missing key yields
the nil slice, so the append starts from `[]`. -/
def Register (observers : Registry) (o : Observer)
    (t : ObservableEventType) : Registry :=
  mapUpdate observers t (some ((observers t).getD [] ++ [o]))

/-- Go `Deregister` (`events.go:281-289`): if the category key `t` is
present, `delete(observers, t)` removes the whole category entry; the
observer argument is only logged. When `t` is absent, only a diagnostic
is logged. -/
def Deregister (observers : Registry) (o : Observer)
    (t : ObservableEventType) : Registry :=
  match observers t with
  | some _ => mapUpdate observers t none
  | none => observers

/-- Go `UpdateAll` (`events.go:291-295`): delivers `event` to each
observer registered under `event.Type`, in slice order; the result is the
list of observers whose `Update` is invoked, in invocation order. -/
def UpdateAll (observers : Registry) (event : Event) : List Observer :=
  (observers event.EventType).getD []

/-- Go `lnrpc.Invoice` as used by `subscribeInvoiceSettlements`. -/
structure Invoice where
  Settled : Bool
  AmtPaidMsat : Int
  RPreimage : List Nat
deriving DecidableEq, Repr

/-- The `Event` built for one invoice update by the receive loop of
`subscribeInvoiceSettlements` (`events.go:219-224`). -/
def invoiceUpdateEvent (invoiceUpdate : Invoice) : Event :=
  { EventType := .SettledInvoice
    IsSettled := invoiceUpdate.Settled
    SettleAmount_msat := invoiceUpdate.AmtPaidMsat
    Preimage := invoiceUpdate.RPreimage }

/-- One iteration of the receive loop of `subscribeInvoiceSettlements`
(`events.go:212-225`): every received update is passed to `UpdateAll`;
the result is the list of observers notified. -/
def processInvoiceUpdate (observers : Registry) (invoiceUpdate : Invoice) :
    List Observer :=
  UpdateAll observers (invoiceUpdateEvent invoiceUpdate)

/-! Concrete fixtures, following the concrete scenario of the spec:
attempt with ids (10, 20, 1, 2) and amounts 5000/4990 msat. -/

/-- An oracle on which every RPC call errors; `settleEventDetails` then
takes both placeholder branches and never calls `getNodeAlias`. -/
def envNoRpc : LndEnv :=
  { getChanInfo := fun _ => none
    getNodeInfo := fun _ => none
    thisNodesPubKey := "self" }

/-- An oracle on which channel lookups succeed against counterparty
`"peer1"`/`"peer2"` but every `GetNodeInfo` call errors. -/
def envAliasFail : LndEnv :=
  { getChanInfo := fun _ => some { Node1Pub := "peer1", Node2Pub := "peer2" }
    getNodeInfo := fun _ => none
    thisNodesPubKey := "self" }

/-- The empty in-flight map. -/
def emptyInFlight : InFlightMap := fun _ => none

/-- The empty observer registry. -/
def emptyRegistry : Registry := fun _ => none

/-- Attempt-Started raw event with ids (10, 20, 1, 2), amounts 5000/4990. -/
def attemptEvent : HtlcEvent :=
  { IncomingChannelId := 10
    OutgoingChannelId := 20
    IncomingHtlcId := 1
    OutgoingHtlcId := 2
    Event := .ForwardEvent { Info := { IncomingAmtMsat := 5000, OutgoingAmtMsat := 4990 } } }

/-- A second Attempt-Started raw event on the same ids (10, 20, 1, 2) with
amounts 7000/6900. -/
def attemptEventLater : HtlcEvent :=
  { IncomingChannelId := 10
    OutgoingChannelId := 20
    IncomingHtlcId := 1
    OutgoingHtlcId := 2
    Event := .ForwardEvent { Info := { IncomingAmtMsat := 7000, OutgoingAmtMsat := 6900 } } }

/-- Settled raw event with the same ids (10, 20, 1, 2). -/
def settleSignal : HtlcEvent :=
  { IncomingChannelId := 10
    OutgoingChannelId := 20
    IncomingHtlcId := 1
    OutgoingHtlcId := 2
    Event := .SettleEvent }

/-- Attempt with ids (1, 2, 3, 4): id sum 10. -/
def attemptX : HtlcEvent :=
  { IncomingChannelId := 1
    OutgoingChannelId := 2
    IncomingHtlcId := 3
    OutgoingHtlcId := 4
    Event := .ForwardEvent { Info := { IncomingAmtMsat := 1000, OutgoingAmtMsat := 990 } } }

/-- Attempt with the distinct ids (4, 3, 2, 1): id sum also 10. -/
def attemptY : HtlcEvent :=
  { IncomingChannelId := 4
    OutgoingChannelId := 3
    IncomingHtlcId := 2
    OutgoingHtlcId := 1
    Event := .ForwardEvent { Info := { IncomingAmtMsat := 2000, OutgoingAmtMsat := 1980 } } }

/-- Link-Failed raw event with the same ids (10, 20, 1, 2). -/
def linkFailSignal : HtlcEvent :=
  { IncomingChannelId := 10
    OutgoingChannelId := 20
    IncomingHtlcId := 1
    OutgoingHtlcId := 2
    Event := .LinkFailEvent }

/-- The `Event` that `settleEventDetails envNoRpc attemptEvent` assembles:
placeholder identities, amounts 5000/4990 from the attempt payload. -/
def placeholderSettled : Event :=
  { EventType := .Forward
    FromPubKey := "Incoming pub key not available"
    FromAlias := "Info not available"
    ToPubKey := "Outgoing pub key not available"
    ToAlias := "Nowhere - you\x27ve been paid"
    IncomingMSats := 5000
    OutgoingMSats := 4990 }

/-- As `placeholderSettled` but with the amounts of `attemptEventLater`. -/
def placeholderSettledLater : Event :=
  { EventType := .Forward
    FromPubKey := "Incoming pub key not available"
    FromAlias := "Info not available"
    ToPubKey := "Outgoing pub key not available"
    ToAlias := "Nowhere - you\x27ve been paid"
    IncomingMSats := 7000
    OutgoingMSats := 6900 }

/-! Helper lemmas. -/

theorem mapUpdate_self {κ α : Type} [DecidableEq κ] (m : κ → Option α)
    (k : κ) (v : Option α) : mapUpdate m k v k = v := by
  simp [mapUpdate]

theorem mapUpdate_of_ne {κ α : Type} [DecidableEq κ] (m : κ → Option α)
    (k : κ) (v : Option α) (q : κ) (h : q ≠ k) : mapUpdate m k v q = m q := by
  simp [mapUpdate, h]

theorem getForwardEvent_of_forward (e : HtlcEvent) (fwd : ForwardEvent)
    (he : e.Event = .ForwardEvent fwd) : e.GetForwardEvent = some fwd := by
  simp [HtlcEvent.GetForwardEvent, he]

/-- Whenever `settleEventDetails` returns an `Event` for a stored forward
attempt, that `Event` has category Forward and carries the attempt
payload's amounts, whatever the resolver answered. -/
theorem settleEventDetails_forward_amounts (env : LndEnv) (e : HtlcEvent)
    (fwd : ForwardEvent) (ev : Event) (he : e.Event = .ForwardEvent fwd)
    (h : settleEventDetails env e = some ev) :
    ev.EventType = .Forward ∧
    ev.IncomingMSats = fwd.Info.IncomingAmtMsat ∧
    ev.OutgoingMSats = fwd.Info.OutgoingAmtMsat := by
  have hget : e.GetForwardEvent = some fwd :=
    getForwardEvent_of_forward e fwd he
  rcases hin : resolveIncoming env e with _ | ⟨fromPubKey, fromAlias⟩
  · simp [settleEventDetails, hin] at h
  · rcases hout : resolveOutgoing env e with _ | ⟨toPubKey, toAlias⟩
    · simp [settleEventDetails, hin, hout] at h
    · simp [settleEventDetails, hin, hout, hget] at h
      subst h
      exact ⟨rfl, rfl, rfl⟩

/-! Claim theorems. -/

/-- Claim C1: processing an Attempt-Started event with key K and then a
Settled event with the same key removes the entry at K from the in-flight
index and delivers exactly one Forward domain event whose incoming and
outgoing msat amounts equal the amounts of the Attempt-Started payload.
The hypothesis `hdetails` states that the enrichment step returns an
event, i.e. does not hit the nil-pointer panic inside `getNodeAlias`
(that panic is the subject of claim C5). -/
theorem C1_settle_correlation (env : LndEnv) (m : InFlightMap)
    (a s : HtlcEvent) (fwd : ForwardEvent) (ev : Event)
    (ha : a.Event = .ForwardEvent fwd)
    (hs : s.Event = .SettleEvent)
    (hkey : inFlightKey s = inFlightKey a)
    (hdetails : settleEventDetails env a = some ev) :
    processHtlcEvent env m a =
      some (mapUpdate m (inFlightKey a) (some a), []) ∧
    processHtlcEvent env (mapUpdate m (inFlightKey a) (some a)) s =
      some (mapUpdate (mapUpdate m (inFlightKey a) (some a))
        (inFlightKey s) none, [ev]) ∧
    mapUpdate (mapUpdate m (inFlightKey a) (some a))
      (inFlightKey s) none (inFlightKey s) = none ∧
    ev.EventType = .Forward ∧
    ev.IncomingMSats = fwd.Info.IncomingAmtMsat ∧
    ev.OutgoingMSats = fwd.Info.OutgoingAmtMsat := by
  obtain ⟨ht, hi, ho⟩ :=
    settleEventDetails_forward_amounts env a fwd ev ha hdetails
  refine ⟨?_, ?_, mapUpdate_self _ _ _, ht, hi, ho⟩
  · simp [processHtlcEvent, ha]
  · simp [processHtlcEvent, hs, hkey, mapUpdate_self, hdetails]

/-- Witness for C1 at the spec's concrete scenario: attempt (10,20,1,2)
with amounts 5000/4990, then a settle on the same ids, against the
all-errors resolver, delivering the placeholder-enriched event. -/
theorem C1_settle_correlation_witness :
    processHtlcEvent envNoRpc
      (mapUpdate emptyInFlight (inFlightKey attemptEvent) (some attemptEvent))
      settleSignal =
    some (mapUpdate
      (mapUpdate emptyInFlight (inFlightKey attemptEvent) (some attemptEvent))
      (inFlightKey settleSignal) none, [placeholderSettled]) :=
  (C1_settle_correlation envNoRpc emptyInFlight attemptEvent settleSignal
    { Info := { IncomingAmtMsat := 5000, OutgoingAmtMsat := 4990 } }
    placeholderSettled rfl rfl rfl rfl).2.1

/-- Claim C2: the claim asserts the key construction is injective on
distinct 4-tuples; the code sums the four ids (`events.go:172`), and the
distinct tuples (1,2,3,4) and (4,3,2,1) of `attemptX` and `attemptY`
both get key 10. -/
theorem C2_routing_key_collision :
    inFlightKey attemptX = inFlightKey attemptY ∧
    (attemptX.IncomingChannelId, attemptX.OutgoingChannelId,
      attemptX.IncomingHtlcId, attemptX.OutgoingHtlcId) ≠
    (attemptY.IncomingChannelId, attemptY.OutgoingChannelId,
      attemptY.IncomingHtlcId, attemptY.OutgoingHtlcId) := by
  decide

/-- Counterexample to claim C3: registering two subscribers named
`alice` under Forward leaves the registry holding both of them under that
category, not exactly one. -/
theorem C3_duplicate_name_two_entries :
    (Register (Register emptyRegistry { Name := "alice" } .Forward)
        { Name := "alice" } .Forward ObservableEventType.Forward).getD [] =
      [{ Name := "alice" }, { Name := "alice" }] ∧
    ((Register (Register emptyRegistry { Name := "alice" } .Forward)
        { Name := "alice" } .Forward ObservableEventType.Forward).getD []).length ≠ 1 := by
  exact ⟨rfl, by decide⟩

/-- Claim C3 amended: registering a subscriber whose name equals the name
of an already-registered subscriber does not replace it; the new
subscriber is appended and the previous holder remains, so the registry
holds both. -/
theorem C3_register_duplicate_appends (observers : Registry)
    (o oPrev : Observer) (t : ObservableEventType)
    (hmem : oPrev ∈ (observers t).getD [])
    (hname : oPrev.Name = o.Name) :
    (Register observers o t t).getD [] = (observers t).getD [] ++ [o] ∧
    oPrev ∈ (Register observers o t t).getD [] ∧
    o ∈ (Register observers o t t).getD [] := by
  have hreg : Register observers o t t = some ((observers t).getD [] ++ [o]) := by
    simp [Register, mapUpdate]
  refine ⟨by rw [hreg]; rfl, ?_, ?_⟩
  · rw [hreg]
    exact List.mem_append_left _ hmem
  · rw [hreg]
    simp

/-- Witness for the amended C3: after registering `alice` twice under
Forward, the second `alice` is in the category's slice. -/
theorem C3_register_duplicate_appends_witness :
    Observer.mk "alice" ∈
      (Register (Register emptyRegistry (Observer.mk "alice") .Forward)
        (Observer.mk "alice") .Forward ObservableEventType.Forward).getD [] :=
  (C3_register_duplicate_appends
    (Register emptyRegistry (Observer.mk "alice") .Forward)
    (Observer.mk "alice") (Observer.mk "alice") ObservableEventType.Forward
    (by decide) rfl).2.2

/-- Claim C4: the claim says deregistering S1 removes exactly S1 and a
later Forward dispatch still invokes S2; the code's `Deregister` runs
`delete(observers, t)`, dropping the whole Forward category, so the
dispatch after deregistering S1 invokes nobody. -/
theorem C4_deregister_removes_category :
    UpdateAll (Deregister
        (Register (Register emptyRegistry { Name := "S1" } .Forward)
          { Name := "S2" } .Forward)
        { Name := "S1" } .Forward)
      { EventType := .Forward } = [] ∧
    Deregister
        (Register (Register emptyRegistry { Name := "S1" } .Forward)
          { Name := "S2" } .Forward)
        { Name := "S1" } .Forward ObservableEventType.Forward = none :=
  ⟨rfl, rfl⟩

/-- Claim C5: the claim says a failed alias lookup substitutes a
placeholder and still delivers; in the code `getNodeAlias` dereferences
the nil `nodeInfo` after a failed `GetNodeInfo`, so a settle whose
channel lookups succeed but whose alias lookup fails panics (`none`)
instead of delivering. -/
theorem C5_alias_failure_panics :
    settleEventDetails envAliasFail attemptEvent = none ∧
    processHtlcEvent envAliasFail
      (mapUpdate emptyInFlight (inFlightKey settleSignal) (some attemptEvent))
      settleSignal = none :=
  ⟨rfl, rfl⟩

/-- Claim C6: a Settled event whose key has no in-flight entry delivers
zero domain events and returns the index unchanged (the very same map,
hence no entry at any key is altered). -/
theorem C6_unmatched_settle_silent (env : LndEnv) (m : InFlightMap)
    (s : HtlcEvent) (hs : s.Event = .SettleEvent)
    (hmiss : m (inFlightKey s) = none) :
    processHtlcEvent env m s = some (m, []) := by
  simp [processHtlcEvent, hs, hmiss]

/-- Witness for C6: a settle on the empty in-flight map. -/
theorem C6_unmatched_settle_silent_witness :
    processHtlcEvent envNoRpc emptyInFlight settleSignal =
      some (emptyInFlight, []) :=
  C6_unmatched_settle_silent envNoRpc emptyInFlight settleSignal rfl rfl

/-- Claim C7: with a matching entry present, the first Settled event
consumes the entry and delivers one domain event; the same Settled event
processed again finds no entry, leaves the index unchanged and delivers
nothing — one domain event in total. -/
theorem C7_settle_idempotent (env : LndEnv) (m : InFlightMap)
    (s e : HtlcEvent) (ev : Event)
    (hs : s.Event = .SettleEvent)
    (hhit : m (inFlightKey s) = some e)
    (hdetails : settleEventDetails env e = some ev) :
    processHtlcEvent env m s =
      some (mapUpdate m (inFlightKey s) none, [ev]) ∧
    processHtlcEvent env (mapUpdate m (inFlightKey s) none) s =
      some (mapUpdate m (inFlightKey s) none, []) := by
  constructor
  · simp [processHtlcEvent, hs, hhit, hdetails]
  · simp [processHtlcEvent, hs, mapUpdate_self]

/-- Witness for C7: the second settle after consuming the (10,20,1,2)
attempt is a no-op delivering nothing. -/
theorem C7_settle_idempotent_witness :
    processHtlcEvent envNoRpc
      (mapUpdate (mapUpdate emptyInFlight (inFlightKey settleSignal)
        (some attemptEvent)) (inFlightKey settleSignal) none)
      settleSignal =
    some (mapUpdate (mapUpdate emptyInFlight (inFlightKey settleSignal)
      (some attemptEvent)) (inFlightKey settleSignal) none, []) :=
  (C7_settle_idempotent envNoRpc
    (mapUpdate emptyInFlight (inFlightKey settleSignal) (some attemptEvent))
    settleSignal attemptEvent placeholderSettled rfl rfl rfl).2

/-- Claim C8: two Attempt-Started events with the same key leave the
later one as the single entry at that key (map overwrite, latest wins),
and a subsequent Settled event delivers a domain event carrying the later
entry's amounts. -/
theorem C8_attempt_overwrite (env : LndEnv) (m : InFlightMap)
    (a1 a2 s : HtlcEvent) (fwd1 fwd2 : ForwardEvent) (ev : Event)
    (ha1 : a1.Event = .ForwardEvent fwd1)
    (ha2 : a2.Event = .ForwardEvent fwd2)
    (hs : s.Event = .SettleEvent)
    (hk2 : inFlightKey a2 = inFlightKey a1)
    (hks : inFlightKey s = inFlightKey a1)
    (hdetails : settleEventDetails env a2 = some ev) :
    processHtlcEvent env m a1 =
      some (mapUpdate m (inFlightKey a1) (some a1), []) ∧
    processHtlcEvent env (mapUpdate m (inFlightKey a1) (some a1)) a2 =
      some (mapUpdate (mapUpdate m (inFlightKey a1) (some a1))
        (inFlightKey a2) (some a2), []) ∧
    mapUpdate (mapUpdate m (inFlightKey a1) (some a1))
      (inFlightKey a2) (some a2) (inFlightKey a1) = some a2 ∧
    processHtlcEvent env
      (mapUpdate (mapUpdate m (inFlightKey a1) (some a1))
        (inFlightKey a2) (some a2)) s =
    some (mapUpdate (mapUpdate (mapUpdate m (inFlightKey a1) (some a1))
      (inFlightKey a2) (some a2)) (inFlightKey s) none, [ev]) ∧
    ev.IncomingMSats = fwd2.Info.IncomingAmtMsat ∧
    ev.OutgoingMSats = fwd2.Info.OutgoingAmtMsat := by
  obtain ⟨ht, hi, ho⟩ :=
    settleEventDetails_forward_amounts env a2 fwd2 ev ha2 hdetails
  refine ⟨?_, ?_, ?_, ?_, hi, ho⟩
  · simp [processHtlcEvent, ha1]
  · simp [processHtlcEvent, ha2]
  · rw [hk2]
    exact mapUpdate_self _ _ _
  · simp [processHtlcEvent, hs, hks, hk2, mapUpdate_self, hdetails]

/-- Witness for C8: the later (10,20,1,2) attempt with amounts 7000/6900
overwrites the earlier one at the shared key. -/
theorem C8_attempt_overwrite_witness :
    mapUpdate (mapUpdate emptyInFlight (inFlightKey attemptEvent)
      (some attemptEvent)) (inFlightKey attemptEventLater)
      (some attemptEventLater) (inFlightKey attemptEvent) =
    some attemptEventLater :=
  (C8_attempt_overwrite envNoRpc emptyInFlight attemptEvent
    attemptEventLater settleSignal
    { Info := { IncomingAmtMsat := 5000, OutgoingAmtMsat := 4990 } }
    { Info := { IncomingAmtMsat := 7000, OutgoingAmtMsat := 6900 } }
    placeholderSettledLater rfl rfl rfl rfl rfl rfl).2.2.1

/-- Claim C9: an Attempt-Started event followed by a Link-Failed or
Forward-Failed event with the same key leaves no entry at that key,
leaves every other key as it was before the pair, and delivers zero
domain events. -/
theorem C9_failure_clears (env : LndEnv) (m : InFlightMap)
    (a f : HtlcEvent) (fwd : ForwardEvent)
    (ha : a.Event = .ForwardEvent fwd)
    (hf : f.Event = .LinkFailEvent ∨ f.Event = .ForwardFailEvent)
    (hk : inFlightKey f = inFlightKey a) :
    processHtlcEvent env m a =
      some (mapUpdate m (inFlightKey a) (some a), []) ∧
    processHtlcEvent env (mapUpdate m (inFlightKey a) (some a)) f =
      some (mapUpdate (mapUpdate m (inFlightKey a) (some a))
        (inFlightKey f) none, []) ∧
    mapUpdate (mapUpdate m (inFlightKey a) (some a))
      (inFlightKey f) none (inFlightKey f) = none ∧
    ∀ q, q ≠ inFlightKey f →
      mapUpdate (mapUpdate m (inFlightKey a) (some a))
        (inFlightKey f) none q = m q := by
  refine ⟨?_, ?_, mapUpdate_self _ _ _, ?_⟩
  · simp [processHtlcEvent, ha]
  · rcases hf with hf | hf <;> simp [processHtlcEvent, hf]
  · intro q hq
    have hq1 : q ≠ inFlightKey a := hk ▸ hq
    rw [mapUpdate_of_ne _ _ _ _ hq, mapUpdate_of_ne _ _ _ _ hq1]

/-- Witness for C9: after the (10,20,1,2) attempt and a link failure on
the same ids, the shared key has no entry. -/
theorem C9_failure_clears_witness :
    mapUpdate (mapUpdate emptyInFlight (inFlightKey attemptEvent)
      (some attemptEvent)) (inFlightKey linkFailSignal) none
      (inFlightKey linkFailSignal) = none :=
  (C9_failure_clears envNoRpc emptyInFlight attemptEvent linkFailSignal
    { Info := { IncomingAmtMsat := 5000, OutgoingAmtMsat := 4990 } }
    rfl (Or.inl rfl) rfl).2.2.1

/-- Claim C10: every invoice update is delivered to the SettledInvoice
subscribers with the settled flag, paid amount and preimage copied
verbatim, and the delivery does not depend on the settled flag — in
particular unsettled updates are delivered too. -/
theorem C10_invoice_passthrough (observers : Registry)
    (invoiceUpdate : Invoice) :
    processInvoiceUpdate observers invoiceUpdate =
      (observers ObservableEventType.SettledInvoice).getD [] ∧
    (invoiceUpdateEvent invoiceUpdate).EventType = .SettledInvoice ∧
    (invoiceUpdateEvent invoiceUpdate).IsSettled = invoiceUpdate.Settled ∧
    (invoiceUpdateEvent invoiceUpdate).SettleAmount_msat =
      invoiceUpdate.AmtPaidMsat ∧
    (invoiceUpdateEvent invoiceUpdate).Preimage = invoiceUpdate.RPreimage ∧
    processInvoiceUpdate observers { invoiceUpdate with Settled := false } =
      processInvoiceUpdate observers { invoiceUpdate with Settled := true } :=
  ⟨rfl, rfl, rfl, rfl, rfl, rfl⟩

end Events
